import Mathlib

/-!
Verification of the streaming decision-tree orchestration layer
(`creme/tree/decision/tree.py`): a shallow embedding of its data model and
operations, together with the parts it uses from the `leaf`, `splitting`,
`criteria` and `proba` modules, which are not part of the excerpt and are
modelled from the specification where required.
-/

/-- Labels are opaque comparable keys (spec section 6); represented by
natural numbers. -/
abbrev Label := Nat

/-- Feature values as the Python-level runtime values the tree receives:
real numbers, text, booleans, and any other runtime value represented by
the name of its type (spec section 6). -/
inductive Value where
| num (q : ℚ)
| text (s : String)
| boolean (b : Bool)
| other (typeTag : String)
deriving DecidableEq

/-- Test mirroring isinstance(value, numbers.Number). In Python a bool is an
instance of numbers.Number, because bool is a subclass of int, so this test
holds for booleans as well. -/
def isNumber : Value → Bool
| .num _ => true
| .boolean _ => true
| _ => false

/-- Test mirroring isinstance(value, (str, bool)). -/
def isStrOrBool : Value → Bool
| .text _ => true
| .boolean _ => true
| _ => false

/-- Name of the Python runtime type of a value, as reported in error
messages (all numeric types are collapsed into the one numeric tag of
`Value`). -/
def pyTypeName : Value → String
| .num _ => "number"
| .text _ => "str"
| .boolean _ => "bool"
| .other t => t

/-- An input example: a mapping from feature name to value (a Python dict,
so keys are unique in well-formed inputs). -/
abbrev Example := List (String × Value)

/-- Modelled from the spec: the `proba.Multinomial` target distribution
(module absent from the excerpt) is a label-to-count mapping; we record the
stream of observed labels, from which counts, the total and the pmf are
derived (spec section 4.1). -/
abbrev TargetDist := List Label

/-- pmf(label) = count/total; an empty distribution returns 0 for every
label (spec section 4.1). -/
def pmf (d : TargetDist) (c : Label) : ℚ :=
  if d.length = 0 then 0 else (d.count c : ℚ) / (d.length : ℚ)

/-- Distinct labels of a distribution in first-observation order (iteration
order of the underlying counter). -/
def distinctLabels (d : TargetDist) : List Label :=
  d.foldl (fun acc c => if c ∈ acc then acc else acc ++ [c]) []

/-- The dictionary built by predict_proba_one: the mapping
label -> pmf(label) over the labels of a distribution. -/
def pmfDict (d : TargetDist) : List (Label × ℚ) :=
  (distinctLabels d).map (fun c => (c, pmf d c))

/-- Modelled from the spec: the two split-enumerator variants of the absent
`splitting` module. Only their identity, their configuration and the type
contract of their update matter to the present claims, so the internal
statistic is kept as the raw stream of accepted observations
(spec sections 2 and 4.3). -/
inductive SplitEnum where
| hist (n_bins : Int) (n_splits : Int) (obs : List (ℚ × Label))
| categorical (obs : List (Value × Label))
deriving DecidableEq

/-- The numeric value of a Python number (booleans count as 0 and 1). -/
def valueAsNum : Value → Option ℚ
| .num q => some q
| .boolean b => some (if b then 1 else 0)
| _ => none

/-- Error condition for a feature value whose type is unsupported, carrying
the offending value and its observed runtime type (the ValueError raised by
_get_split_enum, called UnsupportedFeatureType by the specification). -/
structure UnsupportedFeatureType where
  value : Value
  type_name : String
deriving DecidableEq

/-- Modelled from the spec: updating an enumerator with one observation; a
value whose type is inconsistent with the enumerator's kind is an
UnsupportedFeatureType error (spec section 4.3). -/
def SplitEnum.updateObs : SplitEnum → Value → Label →
    Except UnsupportedFeatureType SplitEnum
| .hist nb ns obs, v, y =>
    match valueAsNum v with
    | some q => .ok (.hist nb ns ((q, y) :: obs))
    | none => .error ⟨v, pyTypeName v⟩
| .categorical obs, v, y =>
    if isStrOrBool v then .ok (.categorical ((v, y) :: obs))
    else .error ⟨v, pyTypeName v⟩

/-- Modelled from the spec: the Leaf node state of the absent `leaf` module:
depth, target distribution, feature-to-split-enumerator mapping, and the
sample count recorded at the last split attempt (spec section 3). -/
structure LeafData where
  depth : Int
  target_dist : TargetDist
  split_enums : List (String × SplitEnum)
  last_attempt : Int
deriving DecidableEq

/-- Modelled from the spec: Node is the tagged union of Leaf and Branch; a
Branch holds a split test and exactly two exclusively-owned children
(spec section 3). -/
inductive Node where
| leaf (l : LeafData)
| branch (split : Example → Bool) (left : Node) (right : Node)

/-- Modelled from the spec: a branch's target distribution aggregates the
distributions accumulated by its exclusively-owned subtree, which is what
makes the curtailment answer of an internal node meaningful
(spec sections 2 and 4.5); a leaf's distribution is its own. -/
def Node.target_dist : Node → TargetDist
| .leaf l => l.target_dist
| .branch _ lft rgt => lft.target_dist ++ rgt.target_dist

/-- Sample count of a node: the total of its target distribution
(spec section 4.1). -/
def Node.n_samples (n : Node) : Nat := n.target_dist.length

/-- Modelled from the spec: the root-to-leaf path for x, descending at each
branch by evaluating its split test (spec section 4.5); the `path`
generator of the absent `leaf` module. -/
def Node.path : Node → Example → List Node
| .leaf l, _ => [.leaf l]
| .branch s lft rgt, x =>
    .branch s lft rgt :: (if s x then lft.path x else rgt.path x)

/-- Modelled from the spec: the selectable impurity criteria of the absent
`criteria` module; the claims depend only on which criterion is selected,
so each criterion function is represented by its tag (spec section 4.2). -/
inductive Criterion where
| gini_impurity
| entropy
deriving DecidableEq

/-- CRITERIA_CLF from the source: mapping of criterion names. -/
def CRITERIA_CLF : List (String × Criterion) :=
  [("gini", .gini_impurity), ("entropy", .entropy)]

/-- First-match association-list lookup (a Python dict access). -/
def assocLookup {β : Type} : List (String × β) → String → Option β
| [], _ => none
| (g, e) :: rest, f => if g = f then some e else assocLookup rest f

/-- The decision tree classifier state: the hyperparameters stored by
BaseDecisionTree.__init__ plus the root node. -/
structure DecisionTreeClassifier where
  criterion : Criterion
  patience : Int
  max_depth : Int
  min_split_gain : ℚ
  min_child_samples : Int
  confidence : ℚ
  tie_threshold : ℚ
  n_split_points : Int
  max_bins : Int
  curtail_under : Int
  root : Node

/-- Error raised by the dictionary access CRITERIA_CLF[criterion] for an
unrecognized criterion name. -/
structure KeyError where
  key : String
deriving DecidableEq

/-- The fresh root created at construction:
leaf.Leaf(depth=0, tree=self, target_dist=proba.Multinomial()). -/
def freshRootLeaf : LeafData :=
  { depth := 0, target_dist := [], split_enums := [], last_attempt := 0 }

/-- The tree record built by BaseDecisionTree.__init__ once the criterion
name has been resolved. -/
def freshTree (criterion : Criterion) (patience max_depth : Int)
    (min_split_gain : ℚ) (min_child_samples : Int)
    (confidence tie_threshold : ℚ)
    (n_split_points max_bins curtail_under : Int) : DecisionTreeClassifier :=
  { criterion := criterion, patience := patience, max_depth := max_depth,
    min_split_gain := min_split_gain, min_child_samples := min_child_samples,
    confidence := confidence, tie_threshold := tie_threshold,
    n_split_points := n_split_points, max_bins := max_bins,
    curtail_under := curtail_under, root := Node.leaf freshRootLeaf }

/-- BaseDecisionTree.__init__: resolves the criterion name through
CRITERIA_CLF (a dictionary access raising KeyError on an unknown name),
stores the remaining hyperparameters without validating them, and creates
the root as a fresh leaf at depth 0. -/
def DecisionTreeClassifier.init (criterion : String)
    (patience max_depth : Int) (min_split_gain : ℚ)
    (min_child_samples : Int) (confidence tie_threshold : ℚ)
    (n_split_points max_bins curtail_under : Int) :
    Except KeyError DecisionTreeClassifier :=
  match assocLookup CRITERIA_CLF criterion with
  | none => .error ⟨criterion⟩
  | some crit => .ok (freshTree crit patience max_depth min_split_gain
      min_child_samples confidence tie_threshold n_split_points max_bins
      curtail_under)

/-- pairwise from the source: s -> (s0,s1), (s1,s2), ..., (sn, None); each
element is paired with its successor and the last element with None, built
in the source with itertools.tee and itertools.zip_longest. -/
def pairwise {α : Type} : List α → List (α × Option α)
| [] => []
| a :: rest => (a, rest.head?) :: pairwise rest

/-- The for-loop of predict_proba_one: scan the (node, child) pairs and stop
at the first pair whose child is None or has fewer than curtail_under
samples; when no pair triggers the break, the loop variable keeps the last
pair's node; on an empty sequence the loop variable stays unbound (a
NameError in Python, none here). -/
def curtailScan (cu : Int) : List (Node × Option Node) → Option Node
| [] => none
| (n, c) :: rest =>
    match c with
    | none => some n
    | some child =>
        if (child.n_samples : Int) < cu then some n
        else
          match curtailScan cu rest with
          | some m => some m
          | none => some n

/-- The node whose target distribution predict_proba_one answers with. -/
def answerNode (t : DecisionTreeClassifier) (x : Example) : Option Node :=
  curtailScan t.curtail_under (pairwise (t.root.path x))

/-- DecisionTreeClassifier.predict_proba_one: walk the (node, child) pairs
of the root-to-leaf path for x, stop per the curtailment loop, and return
the pmf dictionary of the retained node's target distribution. -/
def predict_proba_one (t : DecisionTreeClassifier) (x : Example) :
    Option (List (Label × ℚ)) :=
  (answerNode t x).map (fun nd => pmfDict nd.target_dist)

/-- Wording of the specification: a path pair qualifies when the node's
immediate child on the path either does not exist or has fewer than
curtail_under accumulated samples. -/
def qualifies (cu : Int) (p : Node × Option Node) : Bool :=
  match p.2 with
  | none => true
  | some child => decide ((child.n_samples : Int) < cu)

/-- Wording of the specification claim, literal reading, for comparison with
the implementation: the answer is the target distribution of the last node
in the path whose immediate child either does not exist or has fewer than
curtail_under samples. -/
def predictLastQualifying (t : DecisionTreeClassifier) (x : Example) :
    Option (List (Label × ℚ)) :=
  (((pairwise (t.root.path x)).filter (qualifies t.curtail_under)).getLast?).map
    (fun p => pmfDict p.1.target_dist)

/-- Wording of the specification claim, glossed reading, for comparison with
the implementation: the answer is the target distribution of the deepest
node on the path that is itself mature (at least curtail_under samples). -/
def predictDeepestMature (t : DecisionTreeClassifier) (x : Example) :
    Option (List (Label × ℚ)) :=
  (((t.root.path x).filter
      (fun n => decide (t.curtail_under ≤ (n.n_samples : Int)))).getLast?).map
    (fun n => pmfDict n.target_dist)

/-- DecisionTreeClassifier._get_split_enum: isinstance(value, numbers.Number)
is tested first and holds for booleans as well (bool is a subclass of int),
so any number or boolean yields a fresh histogram enumerator configured with
(max_bins, n_split_points); only non-numeric values reach the second test,
so only strings yield the categorical enumerator; any other value raises. -/
def get_split_enum (t : DecisionTreeClassifier) (value : Value) :
    Except UnsupportedFeatureType SplitEnum :=
  if isNumber value then .ok (.hist t.max_bins t.n_split_points [])
  else if isStrOrBool value then .ok (.categorical [])
  else .error ⟨value, pyTypeName value⟩

/-- Replace (or append) the enumerator stored for a feature name. -/
def setEnum : List (String × SplitEnum) → String → SplitEnum →
    List (String × SplitEnum)
| [], f, e => [(f, e)]
| (g, e0) :: rest, f, e =>
    if g = f then (f, e) :: rest else (g, e0) :: setEnum rest f e

/-- Modelled from the spec: step 2 of the leaf update: for every feature
present in x, route to (creating if absent, via _get_split_enum) the
matching split enumerator and update it with the observation
(spec section 4.4). -/
def updateSplitEnums (t : DecisionTreeClassifier) :
    List (String × SplitEnum) → Example → Label →
    Except UnsupportedFeatureType (List (String × SplitEnum))
| ss, [], _ => .ok ss
| ss, (f, v) :: rest, y =>
    Except.bind
      (match assocLookup ss f with
       | some e => Except.ok e
       | none => get_split_enum t v)
      (fun e => Except.bind (e.updateObs v y)
        (fun e2 => updateSplitEnums t (setEnum ss f e2) rest y))

/-- Modelled from the spec: the split decision of steps 4-7 of the leaf
update (ranking the enumerator candidates and testing the Hoeffding bound,
implemented in the absent leaf and splitting modules) is abstracted as a
parameter that returns the winning split predicate when a split is
authorized; the results below hold for every such decision rule. -/
def SplitPolicy : Type :=
  DecisionTreeClassifier → LeafData → Option (Example → Bool)

/-- Modelled from the spec: the infallible tail of Leaf.update (steps 1 and
3 to 7 of spec section 4.4), applied once the enumerators are updated:
record the new observation in the target distribution, then either keep
growing (when the depth bound or the patience gate blocks a split attempt)
or record the attempt and consult the split decision; an authorized split
replaces the leaf by a branch over two fresh cold leaves at depth + 1. -/
def leafGrow (t : DecisionTreeClassifier) (policy : SplitPolicy)
    (l : LeafData) (y : Label) (ss2 : List (String × SplitEnum)) : Node :=
  let l2 : LeafData :=
    { depth := l.depth, target_dist := l.target_dist ++ [y],
      split_enums := ss2, last_attempt := l.last_attempt }
  if t.max_depth ≤ l.depth ∨
      (l2.target_dist.length : Int) - l.last_attempt < t.patience then
    Node.leaf l2
  else
    let l3 : LeafData :=
      { l2 with last_attempt := (l2.target_dist.length : Int) }
    match policy t l3 with
    | none => Node.leaf l3
    | some pred =>
        Node.branch pred
          (Node.leaf
            { depth := l.depth + 1, target_dist := [], split_enums := [],
              last_attempt := 0 })
          (Node.leaf
            { depth := l.depth + 1, target_dist := [], split_enums := [],
              last_attempt := 0 })

/-- Modelled from the spec: Leaf.update (spec section 4.4): update the
per-feature enumerators (the only step that can fail, with
UnsupportedFeatureType), then grow per leafGrow. -/
def leafUpdate (t : DecisionTreeClassifier) (policy : SplitPolicy)
    (l : LeafData) (x : Example) (y : Label) :
    Except UnsupportedFeatureType Node :=
  Except.bind (updateSplitEnums t l.split_enums x y)
    (fun ss2 => Except.ok (leafGrow t policy l y ss2))

/-- Modelled from the spec: Node.update: a branch routes x by its split test
and updates the chosen child in place; a leaf performs the leaf update
(spec sections 4.4 and 4.5). -/
def nodeUpdate (t : DecisionTreeClassifier) (policy : SplitPolicy) :
    Node → Example → Label → Except UnsupportedFeatureType Node
| .leaf l, x, y => leafUpdate t policy l x y
| .branch s lft rgt, x, y =>
    if s x then
      Except.bind (nodeUpdate t policy lft x y)
        (fun lft2 => Except.ok (Node.branch s lft2 rgt))
    else
      Except.bind (nodeUpdate t policy rgt x y)
        (fun rgt2 => Except.ok (Node.branch s lft rgt2))

/-- BaseDecisionTree.fit_one: self.root = self.root.update(x, y);
return self. The result carries the post-call state together with the
Python return value of the call: `some state` stands for the returned self
and `none` would stand for returning no value (None). -/
def fit_one (t : DecisionTreeClassifier) (policy : SplitPolicy)
    (x : Example) (y : Label) :
    Except UnsupportedFeatureType
      (DecisionTreeClassifier × Option DecisionTreeClassifier) :=
  Except.bind (nodeUpdate t policy t.root x y) (fun r =>
    let t2 := { t with root := r }
    Except.ok (t2, some t2))

/-- The leaf reached when descending the tree for x. -/
def leafFor : Node → Example → LeafData
| .leaf l, _ => l
| .branch s lft rgt, x => if s x then leafFor lft x else leafFor rgt x

/-- An enumerator accepts exactly the values of its kind: histograms accept
numbers (hence also booleans), categorical enumerators accept strings and
booleans. -/
def compatible : SplitEnum → Value → Bool
| .hist _ _ _, v => isNumber v
| .categorical _, v => isStrOrBool v

/-- Compatibility of a value with the enumerator its feature already has, if
any. -/
def compatLookup (ss : List (String × SplitEnum)) (f : String)
    (v : Value) : Bool :=
  match assocLookup ss f with
  | none => true
  | some e => compatible e v

/-- Well-typed input for the current tree state: the example is a dict
(unique feature names), every value is a number, a string or a boolean, and
every value is consistent with the enumerator its feature already has at
the leaf the example reaches (spec sections 4.3 and 6). -/
abbrev WellTyped (t : DecisionTreeClassifier) (x : Example) : Prop :=
  (x.map Prod.fst).Nodup ∧
  ∀ fv ∈ x, (isNumber fv.2 || isStrOrBool fv.2) = true ∧
    compatLookup (leafFor t.root x).split_enums fv.1 fv.2 = true

/-- The call returned normally and its Python return value is the updated
tree itself (the `return self` convention). -/
def returnsSelf
    (r : Except UnsupportedFeatureType
      (DecisionTreeClassifier × Option DecisionTreeClassifier)) : Prop :=
  match r with
  | .ok p => p.2 = some p.1
  | .error _ => False

/-- predict_proba_one as a state transformer: the method body only reads the
tree (no statement assigns to self or to any node), so, translated statement
by statement, the post-state is the pre-state. -/
def predict_proba_one_state (t : DecisionTreeClassifier) (x : Example) :
    Option (List (Label × ℚ)) × DecisionTreeClassifier :=
  (predict_proba_one t x, t)

/-- True when an Except value is a success. -/
def exceptIsOk {ε α : Type} : Except ε α → Bool
| .ok _ => true
| .error _ => false

/-- The split decision that never authorizes a split (realized, e.g., by a
min_split_gain larger than any achievable gain, spec section 8). -/
def neverSplit : SplitPolicy := fun _ _ => none

/-- A tree with the constructor's default hyperparameters and a fresh
root. -/
def baseTree : DecisionTreeClassifier :=
  freshTree Criterion.gini_impurity 250 5 0 20 (1 / 10000000000) (1 / 20)
    30 60 10

/-- A cold leaf at depth 1. -/
def coldLeaf1 : LeafData :=
  { depth := 1, target_dist := [], split_enums := [], last_attempt := 0 }

/-- A depth-1 leaf holding three observations of label 0. -/
def warmLeaf1 : LeafData :=
  { depth := 1, target_dist := [0, 0, 0], split_enums := [], last_attempt := 0 }

/-- A depth-1 leaf holding fifteen observations of label 0. -/
def matureLeaf1 : LeafData :=
  { depth := 1, target_dist := List.replicate 15 0, split_enums := [],
    last_attempt := 0 }

/-- Tree state shortly after a split, with every path node still below the
curtailment threshold: the branch routes every example to the cold left
leaf, while the right leaf holds the three samples seen so far. -/
def curtailTree : DecisionTreeClassifier :=
  { baseTree with
    root := Node.branch (fun _ => true) (Node.leaf coldLeaf1) (Node.leaf warmLeaf1) }

/-- Tree state whose routed-to leaf is mature: the branch routes every
example to the left leaf holding fifteen samples. -/
def matureTree : DecisionTreeClassifier :=
  { baseTree with
    root := Node.branch (fun _ => true) (Node.leaf matureLeaf1) (Node.leaf coldLeaf1) }

/-- The tree built by the constructor when called with criterion "gini" and
max_bins = 0 (all other arguments at their defaults). -/
def zeroBinsTree : DecisionTreeClassifier :=
  freshTree Criterion.gini_impurity 250 5 0 20 (1 / 10000000000) (1 / 20)
    30 0 10

/-- A one-feature numeric example. -/
def wExample : Example := [("a", Value.num 3)]

/-- The tree produced by fitting one example with label 0 and no features
into a fresh tree with the constructor's default hyperparameters. -/
def fitResultTree : DecisionTreeClassifier :=
  { baseTree with
    root := Node.leaf
      { depth := 0, target_dist := [0], split_enums := [],
        last_attempt := 0 } }

/-- The path always yields the node it starts from first. -/
theorem path_head (n : Node) (x : Example) : ∃ rest, n.path x = n :: rest := by
  cases n with
  | leaf l => exact ⟨[], rfl⟩
  | branch s lft rgt => exact ⟨_, rfl⟩

/-- The path is never empty. -/
theorem path_ne_nil (n : Node) (x : Example) : n.path x ≠ [] := by
  obtain ⟨rest, h⟩ := path_head n x
  simp [h]

/-- Sample counts never grow along a path: every node of the path of n is a
descendant of n, and a branch's count is the sum of its children's. -/
theorem n_samples_le_of_mem_path :
    ∀ (n : Node) (x : Example) (m : Node), m ∈ n.path x →
      m.n_samples ≤ n.n_samples := by
  intro n
  induction n with
  | leaf l =>
      intro x m hm
      simp [Node.path] at hm
      subst hm
      exact le_refl _
  | branch s lft rgt ihl ihr =>
      intro x m hm
      simp [Node.path] at hm
      rcases hm with rfl | hm
      · exact le_refl _
      · have hbr : (Node.branch s lft rgt).n_samples =
            lft.n_samples + rgt.n_samples := by
          simp [Node.n_samples, Node.target_dist]
        by_cases hs : s x = true
        · rw [if_pos hs] at hm
          have h1 := ihl x m hm
          omega
        · rw [if_neg hs] at hm
          have h1 := ihr x m hm
          omega

/-- Unfolding equation: pairwise on two or more elements. -/
theorem pairwise_cons_cons {α : Type} (a b : α) (rs : List α) :
    pairwise (a :: b :: rs) = (a, some b) :: pairwise (b :: rs) := rfl

/-- Unfolding equation: pairwise on a single element. -/
theorem pairwise_single {α : Type} (a : α) : pairwise [a] = [(a, none)] := rfl

/-- Unfolding equation: the curtailment loop retains the node of a pair
without a child. -/
theorem curtailScan_cons_none (cu : Int) (n : Node)
    (rest : List (Node × Option Node)) :
    curtailScan cu ((n, none) :: rest) = some n := rfl

/-- Unfolding equation: the curtailment loop on a pair with a child. -/
theorem curtailScan_cons_some (cu : Int) (n child : Node)
    (rest : List (Node × Option Node)) :
    curtailScan cu ((n, some child) :: rest) =
      if (child.n_samples : Int) < cu then some n
      else
        match curtailScan cu rest with
        | some m => some m
        | none => some n := rfl

/-- On the pair list of a nonempty path, the curtailment loop always retains
a node. -/
theorem curtailScan_pairwise_isSome (cu : Int) (l : List Node) (h : l ≠ []) :
    (curtailScan cu (pairwise l)).isSome = true := by
  match l with
  | [] => exact absurd rfl h
  | [a] => rfl
  | a :: b :: rs =>
      rw [pairwise_cons_cons, curtailScan_cons_some]
      by_cases hb : ((b.n_samples : Int) < cu)
      · rw [if_pos hb]; rfl
      · rw [if_neg hb]
        cases hscan : curtailScan cu (pairwise (b :: rs)) <;> rfl

/-- If the node retained by the curtailment loop is itself immature, it is
the first node of the walked sequence. -/
theorem curtailScan_immature_head (cu : Int) :
    ∀ (l : List Node) (nd : Node),
      curtailScan cu (pairwise l) = some nd →
      (nd.n_samples : Int) < cu → l.head? = some nd := by
  intro l
  induction l with
  | nil =>
      intro nd h _
      simp [pairwise, curtailScan] at h
  | cons a rest ih =>
      intro nd h hlt
      cases rest with
      | nil =>
          rw [pairwise_single, curtailScan_cons_none] at h
          rw [List.head?_cons, h]
      | cons b rs =>
          rw [pairwise_cons_cons, curtailScan_cons_some] at h
          by_cases hb : ((b.n_samples : Int) < cu)
          · rw [if_pos hb] at h
            rw [List.head?_cons, h]
          · rw [if_neg hb] at h
            cases hscan : curtailScan cu (pairwise (b :: rs)) with
            | none =>
                rw [hscan] at h
                exact h
            | some m =>
                rw [hscan] at h
                have hmn : m = nd := by
                  have : some m = some nd := h
                  exact Option.some.inj this
                subst hmn
                have hh := ih m hscan hlt
                rw [List.head?_cons] at hh
                have hmb : b = m := Option.some.inj hh
                rw [← hmb] at hlt
                exact absurd hlt hb

/-- The curtailment loop over the pair list is the first-match search for a
qualifying pair. -/
theorem curtailScan_eq_find (cu : Int) :
    ∀ (l : List Node),
      curtailScan cu (pairwise l) =
        ((pairwise l).find? (qualifies cu)).map Prod.fst := by
  intro l
  induction l with
  | nil => rfl
  | cons a rest ih =>
      cases rest with
      | nil => rfl
      | cons b rs =>
          rw [pairwise_cons_cons, curtailScan_cons_some]
          have hq : qualifies cu (a, some b) = decide ((b.n_samples : Int) < cu) :=
            rfl
          by_cases hb : ((b.n_samples : Int) < cu)
          · rw [if_pos hb]
            rw [List.find?_cons_of_pos _ (by rw [hq]; exact decide_eq_true hb)]
            rfl
          · rw [if_neg hb]
            rw [List.find?_cons_of_neg _ (by rw [hq]; simpa using hb)]
            rw [← ih]
            have hs := curtailScan_pairwise_isSome cu (b :: rs) (by simp)
            cases hscan : curtailScan cu (pairwise (b :: rs)) with
            | none => rw [hscan] at hs; simp at hs
            | some m => rfl

/-- A numeric value (including a boolean) has a numeric interpretation. -/
theorem valueAsNum_isSome_of_isNumber (v : Value) (h : isNumber v = true) :
    ∃ q, valueAsNum v = some q := by
  cases v <;> simp_all [isNumber, valueAsNum]

/-- Updating an enumerator with a compatible value succeeds. -/
theorem updateObs_ok (e : SplitEnum) (v : Value) (y : Label)
    (h : compatible e v = true) :
    ∃ e2, SplitEnum.updateObs e v y = Except.ok e2 := by
  cases e with
  | hist nb ns obs =>
      have hn : isNumber v = true := h
      obtain ⟨q, hq⟩ := valueAsNum_isSome_of_isNumber v hn
      refine ⟨SplitEnum.hist nb ns ((q, y) :: obs), ?_⟩
      show (match valueAsNum v with
        | some q => Except.ok (SplitEnum.hist nb ns ((q, y) :: obs))
        | none =>
            Except.error (⟨v, pyTypeName v⟩ : UnsupportedFeatureType)) =
        Except.ok (SplitEnum.hist nb ns ((q, y) :: obs))
      rw [hq]
  | categorical obs =>
      have hs : isStrOrBool v = true := h
      refine ⟨SplitEnum.categorical ((v, y) :: obs), ?_⟩
      show (if isStrOrBool v = true then
          Except.ok (SplitEnum.categorical ((v, y) :: obs))
        else Except.error (⟨v, pyTypeName v⟩ : UnsupportedFeatureType)) =
        Except.ok (SplitEnum.categorical ((v, y) :: obs))
      rw [if_pos hs]

/-- A fresh enumerator obtained from _get_split_enum accepts the value it
was created for. -/
theorem get_split_enum_compatible (t : DecisionTreeClassifier) (v : Value)
    (hv : (isNumber v || isStrOrBool v) = true) :
    ∃ e, get_split_enum t v = Except.ok e ∧ compatible e v = true := by
  by_cases hn : isNumber v = true
  · refine ⟨SplitEnum.hist t.max_bins t.n_split_points [], ?_, hn⟩
    unfold get_split_enum
    rw [if_pos hn]
  · have hs : isStrOrBool v = true := by
      rcases Bool.or_eq_true_iff.mp hv with h1 | h1
      · exact absurd h1 hn
      · exact h1
    refine ⟨SplitEnum.categorical [], ?_, hs⟩
    unfold get_split_enum
    rw [if_neg hn, if_pos hs]

/-- Replacing one feature's enumerator leaves the lookup of every other
feature unchanged. -/
theorem assocLookup_setEnum_ne (f g : String) (e : SplitEnum) (h : g ≠ f) :
    ∀ ss : List (String × SplitEnum),
      assocLookup (setEnum ss f e) g = assocLookup ss g := by
  intro ss
  induction ss with
  | nil => simp [setEnum, assocLookup, Ne.symm h]
  | cons p rest ih =>
      obtain ⟨g0, e0⟩ := p
      by_cases hg : g0 = f
      · subst hg
        simp [setEnum, assocLookup, Ne.symm h]
      · simp [setEnum, hg, assocLookup, ih]

/-- Step 2 of the leaf update succeeds on a well-typed feature set. -/
theorem updateSplitEnums_ok (t : DecisionTreeClassifier) (y : Label) :
    ∀ (x : Example) (ss : List (String × SplitEnum)),
      (x.map Prod.fst).Nodup →
      (∀ fv ∈ x, (isNumber fv.2 || isStrOrBool fv.2) = true ∧
        compatLookup ss fv.1 fv.2 = true) →
      ∃ ss2, updateSplitEnums t ss x y = Except.ok ss2 := by
  intro x
  induction x with
  | nil =>
      intro ss hnd hall
      exact ⟨ss, rfl⟩
  | cons fv rest ih =>
      intro ss hnd hall
      obtain ⟨f, v⟩ := fv
      obtain ⟨hgood, hcompat⟩ := hall (f, v) (List.mem_cons_self _ _)
      have hstep : ∃ e, (match assocLookup ss f with
          | some e => Except.ok e
          | none => get_split_enum t v) = Except.ok e ∧
          compatible e v = true := by
        cases hl : assocLookup ss f with
        | some e =>
            refine ⟨e, rfl, ?_⟩
            unfold compatLookup at hcompat
            rw [hl] at hcompat
            exact hcompat
        | none =>
            obtain ⟨e, he, hc⟩ := get_split_enum_compatible t v hgood
            exact ⟨e, he, hc⟩
      obtain ⟨e, he, hc⟩ := hstep
      obtain ⟨e2, he2⟩ := updateObs_ok e v y hc
      have hnd2 : (rest.map Prod.fst).Nodup := (List.nodup_cons.mp (by simpa using hnd)).2
      have hf : f ∉ rest.map Prod.fst := (List.nodup_cons.mp (by simpa using hnd)).1
      have hall2 : ∀ gv ∈ rest, (isNumber gv.2 || isStrOrBool gv.2) = true ∧
          compatLookup (setEnum ss f e2) gv.1 gv.2 = true := by
        intro gv hgv
        obtain ⟨h1, h2⟩ := hall gv (List.mem_cons_of_mem _ hgv)
        refine ⟨h1, ?_⟩
        have hne : gv.1 ≠ f := by
          intro hEq
          exact hf (hEq ▸ List.mem_map_of_mem Prod.fst hgv)
        unfold compatLookup at h2 ⊢
        rw [assocLookup_setEnum_ne f gv.1 e2 hne ss]
        exact h2
      obtain ⟨ss2, hss2⟩ := ih (setEnum ss f e2) hnd2 hall2
      refine ⟨ss2, ?_⟩
      show Except.bind
        (match assocLookup ss f with
         | some e => Except.ok e
         | none => get_split_enum t v)
        (fun e => Except.bind (e.updateObs v y)
          (fun e2 => updateSplitEnums t (setEnum ss f e2) rest y)) =
        Except.ok ss2
      rw [he]
      show Except.bind (SplitEnum.updateObs e v y)
        (fun e2 => updateSplitEnums t (setEnum ss f e2) rest y) = Except.ok ss2
      rw [he2]
      exact hss2

/-- Node.update succeeds on well-typed input, whatever the split decision
rule. -/
theorem nodeUpdate_ok (t : DecisionTreeClassifier) (policy : SplitPolicy)
    (y : Label) :
    ∀ (node : Node) (x : Example),
      (x.map Prod.fst).Nodup →
      (∀ fv ∈ x, (isNumber fv.2 || isStrOrBool fv.2) = true ∧
        compatLookup (leafFor node x).split_enums fv.1 fv.2 = true) →
      ∃ r, nodeUpdate t policy node x y = Except.ok r := by
  intro node
  induction node with
  | leaf l =>
      intro x hnd hall
      obtain ⟨ss2, hss2⟩ := updateSplitEnums_ok t y x l.split_enums hnd hall
      refine ⟨leafGrow t policy l y ss2, ?_⟩
      show Except.bind (updateSplitEnums t l.split_enums x y)
        (fun ss2 => Except.ok (leafGrow t policy l y ss2)) =
        Except.ok (leafGrow t policy l y ss2)
      rw [hss2]
      rfl
  | branch s lft rgt ihl ihr =>
      intro x hnd hall
      by_cases hs : s x = true
      · have hall2 : ∀ fv ∈ x, (isNumber fv.2 || isStrOrBool fv.2) = true ∧
            compatLookup (leafFor lft x).split_enums fv.1 fv.2 = true := by
          intro fv hfv
          have h0 := hall fv hfv
          rwa [show leafFor (Node.branch s lft rgt) x = leafFor lft x from by
            show (if s x then leafFor lft x else leafFor rgt x) = leafFor lft x
            rw [if_pos hs]] at h0
        obtain ⟨r, hr⟩ := ihl x hnd hall2
        refine ⟨Node.branch s r rgt, ?_⟩
        show (if s x then
            Except.bind (nodeUpdate t policy lft x y)
              (fun lft2 => Except.ok (Node.branch s lft2 rgt))
          else
            Except.bind (nodeUpdate t policy rgt x y)
              (fun rgt2 => Except.ok (Node.branch s lft rgt2))) =
          Except.ok (Node.branch s r rgt)
        rw [if_pos hs, hr]
        rfl
      · have hall2 : ∀ fv ∈ x, (isNumber fv.2 || isStrOrBool fv.2) = true ∧
            compatLookup (leafFor rgt x).split_enums fv.1 fv.2 = true := by
          intro fv hfv
          have h0 := hall fv hfv
          rwa [show leafFor (Node.branch s lft rgt) x = leafFor rgt x from by
            show (if s x then leafFor lft x else leafFor rgt x) = leafFor rgt x
            rw [if_neg hs]] at h0
        obtain ⟨r, hr⟩ := ihr x hnd hall2
        refine ⟨Node.branch s lft r, ?_⟩
        show (if s x then
            Except.bind (nodeUpdate t policy lft x y)
              (fun lft2 => Except.ok (Node.branch s lft2 rgt))
          else
            Except.bind (nodeUpdate t policy rgt x y)
              (fun rgt2 => Except.ok (Node.branch s lft rgt2))) =
          Except.ok (Node.branch s lft r)
        rw [if_neg hs, hr]
        rfl

/-- C10: pairwise yields exactly the pairs (s0,s1), (s1,s2), ..., (sn, None)
in that order — it equals zipping the sequence with its own tail extended by
None — and yields nothing for the empty sequence; consequently the
curtailment walk pairs each path node with its immediate successor and the
terminal node with None. -/
theorem c10_pairwise_pairs :
    (∀ {α : Type} (l : List α),
      pairwise l = l.zip (l.tail.map some ++ [none])) ∧
    (∀ (t : DecisionTreeClassifier) (x : Example),
      pairwise (t.root.path x) =
        (t.root.path x).zip ((t.root.path x).tail.map some ++ [none])) := by
  have h1 : ∀ {α : Type} (l : List α),
      pairwise l = l.zip (l.tail.map some ++ [none]) := by
    intro α l
    induction l with
    | nil => rfl
    | cons a rest ih =>
        cases rest with
        | nil => rfl
        | cons b rs =>
            rw [pairwise_cons_cons, ih]
            rfl
  exact ⟨h1, fun t x => h1 _⟩

/-- C7: predict_proba_one only reads the tree: the post-state equals the
pre-state, and a second call on the unchanged state returns the identical
result. -/
theorem c7_predict_pure_idempotent (t : DecisionTreeClassifier)
    (x : Example) :
    (predict_proba_one_state t x).2 = t ∧
    (predict_proba_one_state ((predict_proba_one_state t x).2) x).1 =
      (predict_proba_one_state t x).1 :=
  ⟨rfl, rfl⟩

/-- C8: predict never fails: on every tree state it returns a pmf
dictionary, and on a freshly constructed tree that has seen no examples it
returns the empty pmf (zero mass for every label), not an error. -/
theorem c8_predict_never_fails :
    (∀ (t : DecisionTreeClassifier) (x : Example),
      ∃ d, predict_proba_one t x = some d) ∧
    (∀ (crit : Criterion) (patience max_depth : Int) (msg : ℚ)
        (mcs : Int) (conf tie : ℚ) (nsp mb cu : Int) (x : Example),
      predict_proba_one
        (freshTree crit patience max_depth msg mcs conf tie nsp mb cu) x =
        some []) := by
  constructor
  · intro t x
    have h := curtailScan_pairwise_isSome t.curtail_under (t.root.path x)
      (path_ne_nil t.root x)
    cases hscan : curtailScan t.curtail_under (pairwise (t.root.path x)) with
    | none => rw [hscan] at h; simp at h
    | some nd =>
        refine ⟨pmfDict nd.target_dist, ?_⟩
        show (curtailScan t.curtail_under (pairwise (t.root.path x))).map
          (fun n => pmfDict n.target_dist) = some (pmfDict nd.target_dist)
        rw [hscan]
        rfl
  · intro crit patience max_depth msg mcs conf tie nsp mb cu x
    rfl

/-- C9: whenever construction succeeds, the tree's root is a fresh leaf at
depth 0 with an empty target distribution and no enumerators. -/
theorem c9_construction_root (criterion : String) (patience max_depth : Int)
    (min_split_gain : ℚ) (min_child_samples : Int)
    (confidence tie_threshold : ℚ)
    (n_split_points max_bins curtail_under : Int)
    (t : DecisionTreeClassifier)
    (h : DecisionTreeClassifier.init criterion patience max_depth
      min_split_gain min_child_samples confidence tie_threshold
      n_split_points max_bins curtail_under = Except.ok t) :
    t.root = Node.leaf freshRootLeaf := by
  unfold DecisionTreeClassifier.init at h
  cases hc : assocLookup CRITERIA_CLF criterion with
  | none =>
      rw [hc] at h
      exact Except.noConfusion h
  | some crit =>
      rw [hc] at h
      have h2 := Except.ok.inj h
      rw [← h2]
      rfl

/-- Witness for C9: the default construction with criterion gini succeeds
and its root is the fresh leaf. -/
theorem c9_construction_root_witness :
    baseTree.root = Node.leaf freshRootLeaf :=
  c9_construction_root "gini" 250 5 0 20 (1 / 10000000000) (1 / 20) 30 60 10
    baseTree rfl

/-- C3 (failing input): _get_split_enum routes a boolean to the histogram
enumerator configured with (max_bins, n_split_points) — not to the
categorical enumerator — because isinstance(True, numbers.Number) holds in
Python (bool is a subclass of int), making the (str, bool) branch
unreachable for booleans; numeric and textual values are routed as the
claim states. -/
theorem c3_bool_routed_to_histogram :
    get_split_enum baseTree (Value.boolean true) =
      Except.ok (SplitEnum.hist 60 30 []) ∧
    get_split_enum baseTree (Value.boolean false) =
      Except.ok (SplitEnum.hist 60 30 []) ∧
    get_split_enum baseTree (Value.num 3) =
      Except.ok (SplitEnum.hist 60 30 []) ∧
    get_split_enum baseTree (Value.text "a") =
      Except.ok (SplitEnum.categorical []) := by
  refine ⟨?_, ?_, ?_, ?_⟩ <;> rfl

/-- C4: a value that is neither a number nor a string nor a boolean makes
the enumerator selection fail with an UnsupportedFeatureType condition
carrying the offending value and its observed type; a numeric, textual or
boolean value never makes it fail. -/
theorem c4_unsupported_type_error (t : DecisionTreeClassifier) (v : Value) :
    (isNumber v = false → isStrOrBool v = false →
      get_split_enum t v =
        Except.error { value := v, type_name := pyTypeName v }) ∧
    ((isNumber v = true ∨ isStrOrBool v = true) →
      exceptIsOk (get_split_enum t v) = true) := by
  cases v <;>
    simp [get_split_enum, isNumber, isStrOrBool, exceptIsOk, pyTypeName]

/-- Witness for C4: the selection fails on a value of an unsupported type,
naming the value and its type, and succeeds on a numeric value. -/
theorem c4_unsupported_type_error_witness :
    get_split_enum baseTree (Value.other "NoneType") =
      Except.error
        { value := Value.other "NoneType", type_name := "NoneType" } ∧
    exceptIsOk (get_split_enum baseTree (Value.num 3)) = true :=
  ⟨(c4_unsupported_type_error baseTree (Value.other "NoneType")).1 rfl rfl,
   (c4_unsupported_type_error baseTree (Value.num 3)).2 (Or.inl rfl)⟩

/-- C6 (amended): construction fails, with the key-lookup error naming the
criterion, exactly when the criterion name is not recognized; the numeric
hyperparameters are stored without any validation, so for every recognized
criterion name construction succeeds whatever their values. -/
theorem c6_construction_validation (criterion : String)
    (patience max_depth : Int) (min_split_gain : ℚ)
    (min_child_samples : Int) (confidence tie_threshold : ℚ)
    (n_split_points max_bins curtail_under : Int) :
    (assocLookup CRITERIA_CLF criterion = none →
      DecisionTreeClassifier.init criterion patience max_depth min_split_gain
        min_child_samples confidence tie_threshold n_split_points max_bins
        curtail_under = Except.error { key := criterion }) ∧
    (∀ crit, assocLookup CRITERIA_CLF criterion = some crit →
      DecisionTreeClassifier.init criterion patience max_depth min_split_gain
        min_child_samples confidence tie_threshold n_split_points max_bins
        curtail_under = Except.ok (freshTree crit patience max_depth
          min_split_gain min_child_samples confidence tie_threshold
          n_split_points max_bins curtail_under)) := by
  constructor
  · intro h
    unfold DecisionTreeClassifier.init
    rw [h]
  · intro crit h
    unfold DecisionTreeClassifier.init
    rw [h]

/-- C6 (counterexample): the claim asserts that construction fails when a
numeric hyperparameter violates its constraint, for example max_bins < 1;
but the constructor accepts criterion "gini" with max_bins = 0 (and 0 < 1)
and returns a tree: no numeric validation is performed. -/
theorem c6_counterexample_no_numeric_validation :
    (0 : Int) < 1 ∧
    DecisionTreeClassifier.init "gini" 250 5 0 20 (1 / 10000000000) (1 / 20)
      30 0 10 = Except.ok zeroBinsTree :=
  ⟨by norm_num, rfl⟩

/-- Witness for C6: an unrecognized name fails with the key error and a
recognized one succeeds. -/
theorem c6_construction_validation_witness :
    DecisionTreeClassifier.init "nope" 250 5 0 20 (1 / 10000000000) (1 / 20)
      30 60 10 = Except.error { key := "nope" } ∧
    DecisionTreeClassifier.init "entropy" 250 5 0 20 (1 / 10000000000)
      (1 / 20) 30 60 10 = Except.ok (freshTree Criterion.entropy 250 5 0 20
      (1 / 10000000000) (1 / 20) 30 60 10) :=
  ⟨(c6_construction_validation "nope" 250 5 0 20 (1 / 10000000000) (1 / 20)
      30 60 10).1 (by decide),
   (c6_construction_validation "entropy" 250 5 0 20 (1 / 10000000000)
      (1 / 20) 30 60 10).2 Criterion.entropy (by decide)⟩

/-- C1 (amended): predict returns the pmf dictionary of the target
distribution of the first node in the root-to-leaf path for x whose
immediate child on the path either does not exist or has fewer than
curtail_under accumulated samples. -/
theorem c1_predict_first_qualifying (t : DecisionTreeClassifier)
    (x : Example) :
    predict_proba_one t x =
      ((pairwise (t.root.path x)).find? (qualifies t.curtail_under)).map
        (fun p => pmfDict p.1.target_dist) := by
  show (curtailScan t.curtail_under (pairwise (t.root.path x))).map
      (fun nd => pmfDict nd.target_dist) = _
  rw [curtailScan_eq_find]
  cases (pairwise (t.root.path x)).find? (qualifies t.curtail_under) <;> rfl

/-- C1 (counterexample): on a tree state where no path node has
curtail_under samples, predict answers with the branch at which the walk
stopped first; this is not the last node of the path whose immediate child
does not exist or is immature (that is always the terminal leaf, here with
an empty distribution), and it is not a node that is itself mature (no such
node exists on the path). -/
theorem c1_counterexample_first_not_last :
    predict_proba_one curtailTree [] = some [(0, 1)] ∧
    predictLastQualifying curtailTree [] = some [] ∧
    predictDeepestMature curtailTree [] = none ∧
    predict_proba_one curtailTree [] ≠ predictLastQualifying curtailTree [] ∧
    predict_proba_one curtailTree [] ≠ predictDeepestMature curtailTree [] := by
  have hp : pmf [0, 0, 0] 0 = 1 := by norm_num [pmf]
  have h1 : predict_proba_one curtailTree [] = some [(0, pmf [0, 0, 0] 0)] :=
    rfl
  rw [hp] at h1
  have h2 : predictLastQualifying curtailTree [] = some [] := rfl
  have h3 : predictDeepestMature curtailTree [] = none := rfl
  refine ⟨h1, h2, h3, ?_, ?_⟩
  · rw [h1, h2]
    simp
  · rw [h1, h3]
    simp

/-- C2: the node whose distribution predict returns never has fewer than
curtail_under samples while an ancestor of it on the root-to-leaf path has
at least curtail_under samples: whenever the path decomposes as
pre ++ nd :: post with nd the answering node, maturity of any node of pre
forces maturity of nd. -/
theorem c2_curtailment_monotonic (t : DecisionTreeClassifier) (x : Example)
    (nd : Node) (pre post : List Node)
    (hpath : t.root.path x = pre ++ nd :: post)
    (hans : answerNode t x = some nd)
    (hanc : ∃ m ∈ pre, t.curtail_under ≤ (m.n_samples : Int)) :
    t.curtail_under ≤ (nd.n_samples : Int) := by
  by_contra hcon
  push_neg at hcon
  have hhead := curtailScan_immature_head t.curtail_under (t.root.path x) nd
    hans hcon
  obtain ⟨rest, hr⟩ := path_head t.root x
  rw [hr, List.head?_cons] at hhead
  have hroot : t.root = nd := Option.some.inj hhead
  obtain ⟨m, hm, hmat⟩ := hanc
  have hmem : m ∈ t.root.path x := by
    rw [hpath]
    exact List.mem_append_left _ hm
  have hle := n_samples_le_of_mem_path t.root x m hmem
  rw [hroot] at hle
  omega

/-- Witness for C2: on a path [branch, leaf] whose leaf holds fifteen
samples, the answering node is the leaf and both it and its ancestor are
mature for the default curtail_under of 10. -/
theorem c2_curtailment_monotonic_witness :
    (10 : Int) ≤ ((Node.leaf matureLeaf1).n_samples : Int) :=
  c2_curtailment_monotonic matureTree [] (Node.leaf matureLeaf1)
    [matureTree.root] [] rfl rfl
    ⟨matureTree.root, by simp, by decide⟩

/-- C5 (amended): for well-typed input, fit succeeds whatever the split
decision rule, and the Python return value of the call is the updated tree
itself (the `return self` of the source), not an absence of value. -/
theorem c5_fit_returns_tree (policy : SplitPolicy)
    (t : DecisionTreeClassifier) (x : Example) (y : Label)
    (h : WellTyped t x) : returnsSelf (fit_one t policy x y) := by
  obtain ⟨hnd, hall⟩ := h
  obtain ⟨r, hr⟩ := nodeUpdate_ok t policy y t.root x hnd hall
  show returnsSelf (Except.bind (nodeUpdate t policy t.root x y) (fun r =>
    Except.ok ({ t with root := r }, some { t with root := r })))
  rw [hr]
  exact rfl

/-- Witness for C5: fitting a one-numeric-feature example into a fresh
default tree returns the updated tree itself. -/
theorem c5_fit_returns_tree_witness :
    WellTyped baseTree wExample ∧
    returnsSelf (fit_one baseTree neverSplit wExample 7) :=
  ⟨by decide, c5_fit_returns_tree neverSplit baseTree wExample 7 (by decide)⟩

/-- C5 (counterexample): fit on a well-typed input does not return
"nothing": the call on a fresh default tree returns the updated tree (the
source ends with `return self`), a value distinct from the absent value
None. -/
theorem c5_counterexample_returns_value :
    WellTyped baseTree [] ∧
    fit_one baseTree neverSplit [] 0 =
      Except.ok (fitResultTree, some fitResultTree) ∧
    some fitResultTree ≠ (none : Option DecisionTreeClassifier) :=
  ⟨by decide, rfl, by simp⟩
